import Mathlib

/-!
Verification of the ingestion-and-liveness core of the Protocup dashboard
(`src/dashboard_core.py`) against its natural-language specification.

Modelling conventions:
* Decoded JSON values are the inductive `JVal`.  Arrays and objects are
  encoded as cons-lists inside the single inductive (so that `DecidableEq`
  is derivable); `JVal.ofFields` builds an object from a field list.
* Python numbers (int and float) are merged into one `num` constructor over
  `Rat`.  The core never performs arithmetic on decoded numbers — it only
  stores them, compares `robot_id == -1`, and formats the id into a default
  name.  Python's cross-type numeric equality (`3 == 3.0`, and both hashing
  to the same dict key) makes the merge behaviour-preserving for everything
  the code does with numbers; only `str()` formatting of non-integer floats
  is approximated, and it is exercised here with integer ids only.
* `RobotData` mirrors the dataclass of the source: one field per dataclass
  field, default for default.  Python's dataclass performs no type checking
  on assignment, so decoded fields keep the dynamic type `JVal`.
  `last_update` is wall-clock time, modelled as `Nat` seconds;
  `is_connected` is only ever assigned the literals `True`/`False` by the
  code, so it is a Lean `Bool`.
* The robot dictionary `self.robots` is modelled as an association list
  `Store` with Python-dict update semantics (replace in place when the key
  exists, append otherwise).  Keys of a parsed-JSON-driven dict are unique;
  theorems that need this take a `Nodup` hypothesis on the key list.
* Exceptions: `_process_robot_data` wraps its body in a try/except that
  swallows any error.  Because the record is created and then mutated in
  place, an exception raised partway through the field assignments leaves
  the partially-updated record in the dictionary.  `decode` returns the
  record as mutated up to the raise point together with a flag telling
  whether the whole body ran (callbacks fire only in that case).
* A UDP payload that is not valid JSON is modelled as the `none` case of
  `receive`s `Option JVal` argument (`json.loads` raised; the handler only
  logs).
-/

/-- Decoded JSON values.  Arrays and objects are cons-encoded so that
`DecidableEq` can be derived for the non-nested inductive. -/
inductive JVal where
  | null
  | bool (b : Bool)
  | num (q : Rat)
  | str (s : String)
  | arrNil
  | arrCons (hd tl : JVal)
  | objNil
  | objCons (k : String) (v tl : JVal)
deriving DecidableEq

namespace JVal

/-- Build an object value from a list of fields. -/
def ofFields : List (String × JVal) → JVal
  | [] => .objNil
  | (k, v) :: rest => .objCons k v (ofFields rest)

/-- Python `isinstance(v, dict)`: the `.get` attribute exists exactly on
dictionaries among decoded JSON values. -/
def isDict : JVal → Bool
  | .objNil => true
  | .objCons _ _ _ => true
  | _ => false

/-- Python `d.get(key, default)` on a dictionary: the stored value when the
key is present, the default otherwise.  On non-dictionary values the source
would raise `AttributeError`; callers guard with `isDict` first. -/
def getD : JVal → String → JVal → JVal
  | .objCons k v tl, key, d => if k = key then v else tl.getD key d
  | _, _, d => d

/-- Whether the key is present in a dictionary value. -/
def hasKey : JVal → String → Bool
  | .objCons k _ tl, key => k = key || tl.hasKey key
  | _, _ => false

/-- Python `robot_id == -1`: true exactly for the number -1 (int or float —
Python compares them equal; no other decoded JSON value equals `-1`). -/
def eqNegOne : JVal → Bool
  | .num q => q = -1
  | _ => false

/-- Python unhashability of decoded JSON values: lists and dicts cannot be
dictionary keys (`robot_id not in self.robots` raises `TypeError`). -/
def unhashable : JVal → Bool
  | .arrNil => true
  | .arrCons _ _ => true
  | .objNil => true
  | .objCons _ _ _ => true
  | _ => false

/-- Python `str()` of a decoded value, as used by the f-string
`f"robot{robot_id}"`.  Only hashable ids reach this point; the numeric case
is exact for integers (the only numbers the claims use). -/
def pyStr : JVal → String
  | .null => "None"
  | .bool true => "True"
  | .bool false => "False"
  | .num q => if q.den = 1 then toString q.num else toString q
  | .str s => s
  | _ => ""

theorem getD_of_not_hasKey {v : JVal} {key : String} (d : JVal)
    (h : v.hasKey key = false) : v.getD key d = d := by
  induction v with
  | objCons k w tl ihv iht =>
    simp only [hasKey, Bool.or_eq_false_iff, decide_eq_false_iff_not] at h
    simp only [getD, if_neg h.1]
    exact iht h.2
  | _ => rfl

end JVal

/-- The dataclass `RobotData` of the source, field for field, default for
default.  Decoded fields keep the dynamic type `JVal` (the dataclass does
not enforce its annotations); `last_update` is wall-clock seconds and
`is_connected` a genuine boolean, exactly as the code uses them. -/
@[ext]
structure RobotData where
  robot_id : JVal := .num (-1)
  robot_name : JVal := .str ""
  team_id : JVal := .num (-1)
  timestamp : JVal := .num 0
  last_update : Nat := 0
  game_state : JVal := .str "UNKNOWN"
  kickoff_side : JVal := .bool false
  score : JVal := .num 0
  pose_x : JVal := .num 0
  pose_y : JVal := .num 0
  pose_theta : JVal := .num 0
  ball_detected : JVal := .bool false
  ball_x : JVal := .num 0
  ball_y : JVal := .num 0
  ball_range : JVal := .num 0
  role : JVal := .str "unknown"
  dynamic_role : JVal := .num (-1)
  has_possession : JVal := .bool false
  possession_player : JVal := .num (-1)
  ball_cost : JVal := .num 0
  decision : JVal := .str "unknown"
  ball_location_known : JVal := .bool false
  avg_loop_time : JVal := .num 0
  max_loop_time : JVal := .num 0
  head_pitch : JVal := .num 0
  head_yaw : JVal := .num 0
  recovery_state : JVal := .num 0
  recovery_available : JVal := .bool false
  team_count : JVal := .num 0
  is_connected : Bool := false
deriving DecidableEq

/-- The robot dictionary `self.robots`, keyed by the decoded `robot_id`
value, as an association list in insertion order. -/
abbrev Store := List (JVal × RobotData)

namespace Store

/-- Dictionary lookup `self.robots[k]` / `k in self.robots`. -/
def find : Store → JVal → Option RobotData
  | [], _ => none
  | kr :: rest, k => if kr.1 = k then some kr.2 else find rest k

/-- Dictionary assignment `self.robots[k] = v`: replace in place when the
key exists, append otherwise (Python dicts preserve insertion order). -/
def insert (s : Store) (k : JVal) (v : RobotData) : Store :=
  if (s.find k).isSome then
    s.map (fun kr => if kr.1 = k then (k, v) else kr)
  else
    s ++ [(k, v)]

end Store

namespace DashboardCore

/-- Constructor arguments of `DashboardCore.__init__` with their defaults:
the listening port and the connect-timeout in seconds. -/
structure Config where
  port : Nat := 8080
  timeout_seconds : Nat := 5

/-- The fixed eviction threshold: `very_old_delta = timedelta(seconds=30)`
inside `_cleanup_expired_robots`. -/
def evictTimeout : Nat := 30

/-- The staleness test of the cleanup loop:
`current_time - robot.last_update > timeout_delta`. -/
def connectStale (now t : Nat) (r : RobotData) : Bool :=
  decide (now - r.last_update > t)

/-- The eviction test of the cleanup loop:
`current_time - robot.last_update > very_old_delta`. -/
def veryOld (now : Nat) (r : RobotData) : Bool :=
  decide (now - r.last_update > evictTimeout)

/-- Lines 177-184: update basic info, set last-seen and connectivity.
These reads are on `data`, already known to be a dict, so they cannot
raise. -/
@[simps]
def update_basic_info (now : Nat) (rid data : JVal) (r : RobotData) : RobotData :=
  { r with
    robot_id := rid
    robot_name := data.getD "robot_name" (.str ("robot" ++ rid.pyStr))
    team_id := data.getD "team_id" (.num (-1))
    timestamp := data.getD "timestamp" (.num 0)
    last_update := now
    is_connected := true }

/-- Lines 185-189: update game state from the `game` section. -/
@[simps]
def update_game_state (game : JVal) (r : RobotData) : RobotData :=
  { r with
    game_state := game.getD "state" (.str "UNKNOWN")
    kickoff_side := game.getD "kickoff_side" (.bool false)
    score := game.getD "score" (.num 0) }

/-- Lines 191-196: update the pose from `robot.pose`. -/
@[simps]
def update_robot_pose (pose : JVal) (r : RobotData) : RobotData :=
  { r with
    pose_x := pose.getD "x" (.num 0)
    pose_y := pose.getD "y" (.num 0)
    pose_theta := pose.getD "theta" (.num 0) }

/-- Lines 198-203: update ball information from `robot.ball`. -/
@[simps]
def update_ball_info (ball : JVal) (r : RobotData) : RobotData :=
  { r with
    ball_detected := ball.getD "detected" (.bool false)
    ball_x := ball.getD "x" (.num 0)
    ball_y := ball.getD "y" (.num 0)
    ball_range := ball.getD "range" (.num 0) }

/-- Lines 205-211: update collaboration fields. -/
@[simps]
def update_collaboration (collab : JVal) (r : RobotData) : RobotData :=
  { r with
    role := collab.getD "role" (.str "unknown")
    dynamic_role := collab.getD "dynamic_role" (.num (-1))
    has_possession := collab.getD "has_possession" (.bool false)
    possession_player := collab.getD "possession_player" (.num (-1))
    ball_cost := collab.getD "ball_cost" (.num 0) }

/-- Lines 213-216: update behavior fields. -/
@[simps]
def update_behavior (behavior : JVal) (r : RobotData) : RobotData :=
  { r with
    decision := behavior.getD "decision" (.str "unknown")
    ball_location_known := behavior.getD "ball_location_known" (.bool false) }

/-- Lines 218-221: update performance fields. -/
@[simps]
def update_performance (perf : JVal) (r : RobotData) : RobotData :=
  { r with
    avg_loop_time := perf.getD "avg_loop_time" (.num 0)
    max_loop_time := perf.getD "max_loop_time" (.num 0) }

/-- Lines 223-226: update head tracking fields. -/
@[simps]
def update_head (head : JVal) (r : RobotData) : RobotData :=
  { r with
    head_pitch := head.getD "pitch" (.num 0)
    head_yaw := head.getD "yaw" (.num 0) }

/-- Lines 228-231: update recovery fields. -/
@[simps]
def update_recovery (recovery : JVal) (r : RobotData) : RobotData :=
  { r with
    recovery_state := recovery.getD "state" (.num 0)
    recovery_available := recovery.getD "available" (.bool false) }

/-- Lines 177-234 of `_process_robot_data`: the in-place field assignments
on the (fresh or existing) record, section by section.  Each section is
read with a `data.get` whose default is an empty dict: a missing section
therefore cascades defaults to its children; a present section that is not
a dict makes the first `.get` on it raise `AttributeError`, which the
outer handler swallows — the record keeps the assignments made up to that
point.  Returns the record as mutated so far and whether the body
completed. -/
def decode (now : Nat) (rid : JVal) (data : JVal) (r0 : RobotData) :
    RobotData × Bool :=
  let rB := update_basic_info now rid data r0
  let game := data.getD "game" .objNil
  if !game.isDict then (rB, false) else
  let rG := update_game_state game rB
  let robot_data := data.getD "robot" .objNil
  if !robot_data.isDict then (rG, false) else
  let pose := robot_data.getD "pose" .objNil
  if !pose.isDict then (rG, false) else
  let rP := update_robot_pose pose rG
  let ball := robot_data.getD "ball" .objNil
  if !ball.isDict then (rP, false) else
  let rL := update_ball_info ball rP
  let collab := data.getD "collaboration" .objNil
  if !collab.isDict then (rL, false) else
  let rC := update_collaboration collab rL
  let behavior := data.getD "behavior" .objNil
  if !behavior.isDict then (rC, false) else
  let rE := update_behavior behavior rC
  let perf := data.getD "performance" .objNil
  if !perf.isDict then (rE, false) else
  let rF := update_performance perf rE
  let head := data.getD "head" .objNil
  if !head.isDict then (rF, false) else
  let rH := update_head head rF
  let recovery := data.getD "recovery" .objNil
  if !recovery.isDict then (rH, false) else
  let rR := update_recovery recovery rH
  ({ rR with team_count := data.getD "team_count" (.num 0) }, true)

/-- `_process_robot_data(data, addr)`: reject a payload whose `robot_id`
resolves (via default) to -1; create a default record for an unseen id;
run the in-place field assignments; on completion call every registered
callback with `(robot_id, robot)` (returned here as the event list).  A
non-dict payload raises on `data.get` and mutates nothing; an unhashable
id raises on the `in` test and mutates nothing; a raise inside the
assignments leaves the partially-updated record in the dictionary and
fires no callback. -/
def process_robot_data (now : Nat) (data : JVal) (s : Store) :
    Store × List (JVal × RobotData) :=
  if !data.isDict then (s, [])
  else
    let rid := data.getD "robot_id" (.num (-1))
    if rid.eqNegOne then (s, [])
    else if rid.unhashable then (s, [])
    else
      let r0 := (s.find rid).getD { last_update := now }
      let dr := decode now rid data r0
      (s.insert rid dr.1, if dr.2 then [(rid, dr.1)] else [])

/-- One received datagram in `_receive_data`: `json.loads` either fails
(`none` — logged, no store effect) or yields a decoded value handed to
`_process_robot_data`. -/
def receive (now : Nat) (payload : Option JVal) (s : Store) :
    Store × List (JVal × RobotData) :=
  match payload with
  | none => (s, [])
  | some data => process_robot_data now data s

/-- First phase of one `_cleanup_expired_robots` iteration: flip
`is_connected` to false on every record older than the connect-timeout and
collect the callback invocations `(robot_id, robot)` made for each of them
(the notification loop reads the already-flipped records; dict keys are
unique, so the record passed is the flipped one). -/
def cleanup_mark (now t : Nat) (s : Store) :
    Store × List (JVal × RobotData) :=
  (s.map (fun kr =>
      if connectStale now t kr.2 then (kr.1, { kr.2 with is_connected := false }) else kr),
   s.filterMap (fun kr =>
      if connectStale now t kr.2 then some (kr.1, { kr.2 with is_connected := false }) else none))

/-- Second phase of one cleanup iteration: delete every record older than
the fixed 30-second threshold.  The deletion loop contains no callback
invocation. -/
def cleanup_evict (now : Nat) (s : Store) : Store :=
  s.filter (fun kr => !veryOld now kr.2)

/-- One full iteration of the `_cleanup_expired_robots` loop: mark-and-
notify stale records, then evict very old ones.  All callback invocations
of the iteration come from the mark phase. -/
def cleanup_tick (now t : Nat) (s : Store) :
    Store × List (JVal × RobotData) :=
  (cleanup_evict now (cleanup_mark now t s).1, (cleanup_mark now t s).2)

/-- `get_robots`: `self.robots.copy()` — same entries. -/
def get_robots (s : Store) : Store := s

/-- `get_connected_robots`: the comprehension filtering on `is_connected`. -/
def get_connected_robots (s : Store) : Store :=
  s.filter (fun kr => kr.2.is_connected)

/-- Store states reachable from the empty dictionary by any interleaving of
received datagrams (including undecodable ones) and cleanup iterations, at
arbitrary times and with arbitrary configured connect-timeouts. -/
inductive Reachable : Store → Prop where
  | init : Reachable []
  | step_receive (now : Nat) (p : Option JVal) (s : Store) :
      Reachable s → Reachable (receive now p s).1
  | step_cleanup (now t : Nat) (s : Store) :
      Reachable s → Reachable (cleanup_tick now t s).1

end DashboardCore

namespace Store

theorem find_cons (x : JVal × RobotData) (rest : Store) (k : JVal) :
    Store.find (x :: rest) k
      = if x.1 = k then some x.2 else Store.find rest k := rfl

theorem find_append_right (s l : Store) (k : JVal) (h : Store.find s k = none) :
    Store.find (s ++ l) k = Store.find l k := by
  induction s with
  | nil => rfl
  | cons x rest ih =>
    rw [find_cons] at h
    by_cases hk : x.1 = k
    · rw [if_pos hk] at h
      exact absurd h (by simp)
    · rw [if_neg hk] at h
      rw [List.cons_append, find_cons, if_neg hk]
      exact ih h

theorem find_map_replace (s : Store) (k : JVal) (v : RobotData)
    (h : (Store.find s k).isSome) :
    Store.find (s.map (fun kr => if kr.1 = k then (k, v) else kr)) k = some v := by
  induction s with
  | nil => simp [Store.find] at h
  | cons x rest ih =>
    rw [List.map_cons]
    by_cases hk : x.1 = k
    · rw [show (if x.1 = k then (k, v) else x) = (k, v) from if_pos hk]
      rw [find_cons, if_pos rfl]
    · rw [show (if x.1 = k then (k, v) else x) = x from if_neg hk]
      rw [find_cons, if_neg hk]
      apply ih
      rw [find_cons, if_neg hk] at h
      exact h

theorem find_insert (s : Store) (k : JVal) (v : RobotData) :
    Store.find (s.insert k v) k = some v := by
  unfold Store.insert
  by_cases h : (Store.find s k).isSome
  · rw [if_pos h]
    exact find_map_replace s k v h
  · rw [if_neg h]
    rw [find_append_right s _ k (Option.not_isSome_iff_eq_none.mp h)]
    rw [find_cons, if_pos rfl]

theorem mem_insert {s : Store} {k k1 : JVal} {v r1 : RobotData}
    (h : (k1, r1) ∈ s.insert k v) :
    (k1, r1) ∈ s ∨ (k1 = k ∧ r1 = v) := by
  unfold Store.insert at h
  by_cases hf : (Store.find s k).isSome
  · rw [if_pos hf] at h
    rcases List.mem_map.mp h with ⟨x, hm, heq⟩
    by_cases hk : x.1 = k
    · rw [if_pos hk] at heq
      simp only [Prod.mk.injEq] at heq
      exact Or.inr ⟨heq.1.symm, heq.2.symm⟩
    · rw [if_neg hk] at heq
      exact Or.inl (heq ▸ hm)
  · rw [if_neg hf] at h
    rcases List.mem_append.mp h with h | h
    · exact Or.inl h
    · simp only [List.mem_singleton, Prod.mk.injEq] at h
      exact Or.inr h

theorem find_unique {s : Store} {k : JVal} {r r0 : RobotData}
    (hnodup : (s.map Prod.fst).Nodup) (hfind : Store.find s k = some r)
    (hmem : (k, r0) ∈ s) : r0 = r := by
  induction s with
  | nil => simp [Store.find] at hfind
  | cons x rest ih =>
    simp only [List.map_cons, List.nodup_cons] at hnodup
    rw [find_cons] at hfind
    by_cases hk : x.1 = k
    · rw [if_pos hk] at hfind
      rcases List.mem_cons.mp hmem with h | h
      · rw [← h] at hfind
        simpa using hfind
      · exfalso
        apply hnodup.1
        rw [hk]
        exact List.mem_map.mpr ⟨(k, r0), h, rfl⟩
    · rw [if_neg hk] at hfind
      rcases List.mem_cons.mp hmem with h | h
      · exact absurd (congrArg Prod.fst h.symm) hk
      · exact ih hnodup.2 hfind h

theorem find_filter_none (s : Store) (k : JVal) (p : JVal × RobotData → Bool)
    (h : ∀ x, x ∈ s → x.1 = k → p x = false) :
    Store.find (s.filter p) k = none := by
  induction s with
  | nil => rfl
  | cons x rest ih =>
    have hrest : Store.find (rest.filter p) k = none :=
      ih fun y hy => h y (List.mem_cons_of_mem _ hy)
    rw [List.filter_cons]
    by_cases hk : x.1 = k
    · rw [h x (List.mem_cons_self _ _) hk]
      simpa using hrest
    · by_cases hp : p x
      · rw [if_pos (by simpa using hp), find_cons, if_neg hk]
        exact hrest
      · rw [if_neg (by simpa using hp)]
        exact hrest

end Store

namespace DashboardCore

/-- When the body of `_process_robot_data` runs to completion: every
present section value is a dict (a missing section defaults to an empty
dict, which is one), so no `.get` on a section raises. -/
def sections_ok (data : JVal) : Bool :=
  (data.getD "game" .objNil).isDict &&
  (data.getD "robot" .objNil).isDict &&
  ((data.getD "robot" .objNil).getD "pose" .objNil).isDict &&
  ((data.getD "robot" .objNil).getD "ball" .objNil).isDict &&
  (data.getD "collaboration" .objNil).isDict &&
  (data.getD "behavior" .objNil).isDict &&
  (data.getD "performance" .objNil).isDict &&
  (data.getD "head" .objNil).isDict &&
  (data.getD "recovery" .objNil).isDict

theorem decode_robot_id (now : Nat) (rid data : JVal) (r0 : RobotData) :
    (decode now rid data r0).1.robot_id = rid := by
  simp only [decode]
  cases h1 : (data.getD "game" JVal.objNil).isDict
  · simp [h1]
  · cases h2 : (data.getD "robot" JVal.objNil).isDict
    · simp [h1, h2]
    · cases h3 : ((data.getD "robot" JVal.objNil).getD "pose" JVal.objNil).isDict
      · simp [h1, h2, h3]
      · cases h4 : ((data.getD "robot" JVal.objNil).getD "ball" JVal.objNil).isDict
        · simp [h1, h2, h3, h4]
        · cases h5 : (data.getD "collaboration" JVal.objNil).isDict
          · simp [h1, h2, h3, h4, h5]
          · cases h6 : (data.getD "behavior" JVal.objNil).isDict
            · simp [h1, h2, h3, h4, h5, h6]
            · cases h7 : (data.getD "performance" JVal.objNil).isDict
              · simp [h1, h2, h3, h4, h5, h6, h7]
              · cases h8 : (data.getD "head" JVal.objNil).isDict
                · simp [h1, h2, h3, h4, h5, h6, h7, h8]
                · cases h9 : (data.getD "recovery" JVal.objNil).isDict
                  · simp [h1, h2, h3, h4, h5, h6, h7, h8, h9]
                  · simp [h1, h2, h3, h4, h5, h6, h7, h8, h9]

theorem decode_robot_name (now : Nat) (rid data : JVal) (r0 : RobotData) :
    (decode now rid data r0).1.robot_name
      = data.getD "robot_name" (.str ("robot" ++ rid.pyStr)) := by
  simp only [decode]
  cases h1 : (data.getD "game" JVal.objNil).isDict
  · simp [h1]
  · cases h2 : (data.getD "robot" JVal.objNil).isDict
    · simp [h1, h2]
    · cases h3 : ((data.getD "robot" JVal.objNil).getD "pose" JVal.objNil).isDict
      · simp [h1, h2, h3]
      · cases h4 : ((data.getD "robot" JVal.objNil).getD "ball" JVal.objNil).isDict
        · simp [h1, h2, h3, h4]
        · cases h5 : (data.getD "collaboration" JVal.objNil).isDict
          · simp [h1, h2, h3, h4, h5]
          · cases h6 : (data.getD "behavior" JVal.objNil).isDict
            · simp [h1, h2, h3, h4, h5, h6]
            · cases h7 : (data.getD "performance" JVal.objNil).isDict
              · simp [h1, h2, h3, h4, h5, h6, h7]
              · cases h8 : (data.getD "head" JVal.objNil).isDict
                · simp [h1, h2, h3, h4, h5, h6, h7, h8]
                · cases h9 : (data.getD "recovery" JVal.objNil).isDict
                  · simp [h1, h2, h3, h4, h5, h6, h7, h8, h9]
                  · simp [h1, h2, h3, h4, h5, h6, h7, h8, h9]

theorem decode_completes (now : Nat) (rid data : JVal) (r0 : RobotData) :
    (decode now rid data r0).2 = sections_ok data := by
  simp only [decode, sections_ok]
  cases h1 : (data.getD "game" JVal.objNil).isDict
  · simp [h1]
  · cases h2 : (data.getD "robot" JVal.objNil).isDict
    · simp [h1, h2]
    · cases h3 : ((data.getD "robot" JVal.objNil).getD "pose" JVal.objNil).isDict
      · simp [h1, h2, h3]
      · cases h4 : ((data.getD "robot" JVal.objNil).getD "ball" JVal.objNil).isDict
        · simp [h1, h2, h3, h4]
        · cases h5 : (data.getD "collaboration" JVal.objNil).isDict
          · simp [h1, h2, h3, h4, h5]
          · cases h6 : (data.getD "behavior" JVal.objNil).isDict
            · simp [h1, h2, h3, h4, h5, h6]
            · cases h7 : (data.getD "performance" JVal.objNil).isDict
              · simp [h1, h2, h3, h4, h5, h6, h7]
              · cases h8 : (data.getD "head" JVal.objNil).isDict
                · simp [h1, h2, h3, h4, h5, h6, h7, h8]
                · cases h9 : (data.getD "recovery" JVal.objNil).isDict
                  · simp [h1, h2, h3, h4, h5, h6, h7, h8, h9]
                  · simp [h1, h2, h3, h4, h5, h6, h7, h8, h9]

theorem decode_score_of_game_dict (now : Nat) (rid data : JVal) (r0 : RobotData)
    (hg : (data.getD "game" JVal.objNil).isDict = true) :
    (decode now rid data r0).1.score
      = (data.getD "game" JVal.objNil).getD "score" (.num 0) := by
  simp only [decode]
  cases h2 : (data.getD "robot" JVal.objNil).isDict
  · simp [hg, h2]
  · cases h3 : ((data.getD "robot" JVal.objNil).getD "pose" JVal.objNil).isDict
    · simp [hg, h2, h3]
    · cases h4 : ((data.getD "robot" JVal.objNil).getD "ball" JVal.objNil).isDict
      · simp [hg, h2, h3, h4]
      · cases h5 : (data.getD "collaboration" JVal.objNil).isDict
        · simp [hg, h2, h3, h4, h5]
        · cases h6 : (data.getD "behavior" JVal.objNil).isDict
          · simp [hg, h2, h3, h4, h5, h6]
          · cases h7 : (data.getD "performance" JVal.objNil).isDict
            · simp [hg, h2, h3, h4, h5, h6, h7]
            · cases h8 : (data.getD "head" JVal.objNil).isDict
              · simp [hg, h2, h3, h4, h5, h6, h7, h8]
              · cases h9 : (data.getD "recovery" JVal.objNil).isDict
                · simp [hg, h2, h3, h4, h5, h6, h7, h8, h9]
                · simp [hg, h2, h3, h4, h5, h6, h7, h8, h9]

theorem decode_ok_indep (now : Nat) (rid data : JVal) (r1 r2 : RobotData)
    (hok : sections_ok data = true) :
    (decode now rid data r1).1 = (decode now rid data r2).1 := by
  simp only [sections_ok, Bool.and_eq_true] at hok
  obtain ⟨⟨⟨⟨⟨⟨⟨⟨h1, h2⟩, h3⟩, h4⟩, h5⟩, h6⟩, h7⟩, h8⟩, h9⟩ := hok
  simp only [decode, h1, h2, h3, h4, h5, h6, h7, h8, h9, Bool.not_true,
    Bool.false_eq_true, if_false]
  ext <;> simp

theorem process_robot_data_not_dict {now : Nat} {data : JVal} {s : Store}
    (hd : data.isDict = false) : process_robot_data now data s = (s, []) := by
  simp [process_robot_data, hd]

theorem process_robot_data_neg_id {now : Nat} {data : JVal} {s : Store}
    (hneg : (data.getD "robot_id" (.num (-1))).eqNegOne = true) :
    process_robot_data now data s = (s, []) := by
  cases hd : data.isDict
  · simp [process_robot_data, hd]
  · simp [process_robot_data, hd, hneg]

theorem process_robot_data_unhashable_id {now : Nat} {data : JVal} {s : Store}
    (hd : data.isDict = true)
    (hun : (data.getD "robot_id" (.num (-1))).unhashable = true) :
    process_robot_data now data s = (s, []) := by
  cases hneg : (data.getD "robot_id" (.num (-1))).eqNegOne
  · simp [process_robot_data, hd, hneg, hun]
  · simp [process_robot_data, hd, hneg]

theorem process_robot_data_upsert {now : Nat} {data : JVal} {s : Store}
    (hd : data.isDict = true)
    (hneg : (data.getD "robot_id" (.num (-1))).eqNegOne = false)
    (hun : (data.getD "robot_id" (.num (-1))).unhashable = false) :
    process_robot_data now data s =
      (s.insert (data.getD "robot_id" (.num (-1)))
        (decode now (data.getD "robot_id" (.num (-1))) data
          ((Store.find s (data.getD "robot_id" (.num (-1)))).getD { last_update := now })).1,
       if (decode now (data.getD "robot_id" (.num (-1))) data
            ((Store.find s (data.getD "robot_id" (.num (-1)))).getD { last_update := now })).2
       then [(data.getD "robot_id" (.num (-1)),
              (decode now (data.getD "robot_id" (.num (-1))) data
                ((Store.find s (data.getD "robot_id" (.num (-1)))).getD { last_update := now })).1)]
       else []) := by
  simp [process_robot_data, hd, hneg, hun]

theorem mem_cleanup_mark_store {now t : Nat} {s : Store} {k : JVal} {r : RobotData}
    (h : (k, r) ∈ (cleanup_mark now t s).1) :
    ∃ r0, (k, r0) ∈ s ∧ r.last_update = r0.last_update ∧ r.robot_id = r0.robot_id := by
  simp only [cleanup_mark, List.mem_map] at h
  obtain ⟨⟨k1, r1⟩, hm, heq⟩ := h
  by_cases hc : connectStale now t r1 = true
  · rw [if_pos (by simpa using hc)] at heq
    injection heq with hk hr
    subst hk
    rw [← hr]
    exact ⟨r1, hm, rfl, rfl⟩
  · rw [if_neg (by simpa using hc)] at heq
    injection heq with hk hr
    subst hk
    rw [← hr]
    exact ⟨r1, hm, rfl, rfl⟩

theorem mem_cleanup_tick_store {now t : Nat} {s : Store} {k : JVal} {r : RobotData}
    (h : (k, r) ∈ (cleanup_tick now t s).1) :
    ∃ r0, (k, r0) ∈ s ∧ r.last_update = r0.last_update ∧ r.robot_id = r0.robot_id := by
  simp only [cleanup_tick, cleanup_evict] at h
  exact mem_cleanup_mark_store (List.mem_of_mem_filter h)

end DashboardCore

namespace DashboardCore

/-- C1 (corrected, counterexample): re-sending id 1 with only `robot_id`
and `game` supplied does NOT leave `collaboration` at its prior value: the
previously stored role "striker" is reset to the default "unknown". -/
theorem sections_reset_counterexample :
    let d1 := JVal.ofFields [("robot_id", .num 1),
      ("collaboration", JVal.ofFields [("role", .str "striker")])]
    let d2 := JVal.ofFields [("robot_id", .num 1),
      ("game", JVal.ofFields [("state", .str "PLAYING")])]
    (Store.find (process_robot_data 0 d1 []).1 (JVal.num 1)).map RobotData.role
        = some (.str "striker") ∧
    (Store.find (process_robot_data 1 d2 (process_robot_data 0 d1 []).1).1
        (JVal.num 1)).map RobotData.role = some (.str "unknown") ∧
    (Store.find (process_robot_data 1 d2 (process_robot_data 0 d1 []).1).1
        (JVal.num 1)).map RobotData.role ≠ some (.str "striker") := by decide

/-- C1 (corrected, amended): ingesting a datagram whose supplied sections
are all objects (so the assignment body completes) overwrites every field
of the record: the resulting stored record is entirely determined by the
datagram and the clock, independent of whatever record was previously
stored under that id — unsupplied sections are reset to their defaults,
not retained. -/
theorem ingest_overwrites_all_sections (now : Nat) (data : JVal) (s1 s2 : Store)
    (hd : data.isDict = true)
    (hneg : (data.getD "robot_id" (.num (-1))).eqNegOne = false)
    (hun : (data.getD "robot_id" (.num (-1))).unhashable = false)
    (hok : sections_ok data = true) :
    Store.find (process_robot_data now data s1).1 (data.getD "robot_id" (.num (-1)))
      = Store.find (process_robot_data now data s2).1 (data.getD "robot_id" (.num (-1))) := by
  rw [process_robot_data_upsert hd hneg hun, process_robot_data_upsert hd hneg hun]
  dsimp only
  rw [Store.find_insert, Store.find_insert]
  exact congrArg some (decode_ok_indep now _ data _ _ hok)

/-- Witness for C1's amended theorem at a concrete input: a datagram for
id 1 with no sections, ingested over a store holding a "striker" record
for id 1 and over the empty store, yields the same stored record. -/
theorem ingest_overwrites_all_sections_witness :
    Store.find (process_robot_data 5 (JVal.ofFields [("robot_id", .num 1)])
        [(JVal.num 1, { role := .str "striker", last_update := 0 })]).1 (JVal.num 1)
      = Store.find (process_robot_data 5 (JVal.ofFields [("robot_id", .num 1)]) []).1
        (JVal.num 1) :=
  ingest_overwrites_all_sections 5 (JVal.ofFields [("robot_id", .num 1)])
    [(JVal.num 1, { role := .str "striker", last_update := 0 })] []
    (by decide) (by decide) (by decide) (by decide)

/-- C2 (corrected, counterexample): a record last seen at time 0 with
connect-timeout 5 is notified by the cleanup tick at time 10, and is
notified AGAIN by the next tick at time 11 while still stale — the
notification is not fired exactly once. -/
theorem stale_renotified_counterexample :
    ((cleanup_tick 10 5 [(JVal.num 1,
        { robot_id := .num 1, last_update := 0, is_connected := true })]).2).length = 1 ∧
    ((cleanup_tick 11 5 (cleanup_tick 10 5 [(JVal.num 1,
        { robot_id := .num 1, last_update := 0, is_connected := true })]).1).2).length = 1 := by
  decide

/-- C2 (corrected, amended): on EVERY cleanup tick, every record whose
last-seen age exceeds the connect-timeout has its connected flag set to
false in the store and a notification `(id, flipped record)` emitted —
with no check whether it was still marked connected, so a continuously
stale record is re-flipped and re-notified on every tick until evicted. -/
theorem cleanup_notifies_every_stale_record (now t : Nat) (s : Store)
    (k : JVal) (r : RobotData)
    (hmem : (k, r) ∈ s) (hstale : connectStale now t r = true) :
    (k, { r with is_connected := false }) ∈ (cleanup_mark now t s).1 ∧
    (k, { r with is_connected := false }) ∈ (cleanup_tick now t s).2 := by
  constructor
  · simp only [cleanup_mark]
    exact List.mem_map.mpr ⟨(k, r), hmem, by simp [hstale]⟩
  · simp only [cleanup_tick, cleanup_mark]
    exact List.mem_filterMap.mpr ⟨(k, r), hmem, by simp [hstale]⟩

/-- Witness for C2's amended theorem: an already-disconnected stale record
is still flipped and re-notified by a tick. -/
theorem cleanup_notifies_every_stale_record_witness :
    (JVal.num 1, ({ robot_id := .num 1, last_update := 0, is_connected := false } : RobotData))
      ∈ (cleanup_mark 11 5 [(JVal.num 1,
          { robot_id := .num 1, last_update := 0, is_connected := false })]).1 ∧
    (JVal.num 1, ({ robot_id := .num 1, last_update := 0, is_connected := false } : RobotData))
      ∈ (cleanup_tick 11 5 [(JVal.num 1,
          { robot_id := .num 1, last_update := 0, is_connected := false })]).2 :=
  cleanup_notifies_every_stale_record 11 5
    [(JVal.num 1, { robot_id := .num 1, last_update := 0, is_connected := false })]
    (JVal.num 1) { robot_id := .num 1, last_update := 0, is_connected := false }
    (by decide) (by decide)

/-- C3 (corrected, counterexample): a datagram whose `robot_id` is -2 (a
negative id other than -1) DOES create a record: the guard only rejects
the exact value -1. -/
theorem negative_id_creates_record_counterexample :
    (process_robot_data 0 (JVal.ofFields [("robot_id", .num (-2))]) []).1.length = 1 ∧
    Store.find (process_robot_data 0 (JVal.ofFields [("robot_id", .num (-2))]) []).1
      (JVal.num (-2)) ≠ none := by decide

/-- C3 (corrected, amended): a datagram whose `robot_id` field is absent
(defaulting to -1) or equal to -1 creates no record and mutates nothing —
the store and the emitted notifications are exactly as before; other
negative ids are not rejected. -/
theorem reject_only_minus_one_id (now : Nat) (data : JVal) (s : Store)
    (hneg : (data.getD "robot_id" (.num (-1))).eqNegOne = true) :
    process_robot_data now data s = (s, []) :=
  process_robot_data_neg_id hneg

/-- Witness for C3's amended theorem: an explicit -1 id datagram is a
no-op on the empty store. -/
theorem reject_only_minus_one_id_witness :
    process_robot_data 7 (JVal.ofFields [("robot_id", JVal.num (-1)),
      ("game", JVal.ofFields [("state", JVal.str "READY")])]) [] = ([], []) :=
  reject_only_minus_one_id 7 (JVal.ofFields [("robot_id", JVal.num (-1)),
    ("game", JVal.ofFields [("state", JVal.str "READY")])]) [] (by decide)

/-- C4 (corrected, counterexample): a present-but-wrong-typed field does
NOT resolve to its default — a string `score` is stored verbatim; and a
non-object `game` value aborts the remaining assignments, so a later
`collaboration` section is not applied (role stays at its default). -/
theorem wrong_typed_field_counterexample :
    (Store.find (process_robot_data 0 (JVal.ofFields [("robot_id", .num 1),
        ("game", JVal.ofFields [("score", .str "lots")])]) []).1 (JVal.num 1)).map
        RobotData.score ≠ some (JVal.num 0) ∧
    (Store.find (process_robot_data 0 (JVal.ofFields [("robot_id", .num 2),
        ("game", .num 7),
        ("collaboration", JVal.ofFields [("role", .str "striker")])]) []).1
        (JVal.num 2)).map RobotData.role = some (JVal.str "unknown") := by decide

/-- C4 (corrected, amended): a present leaf field is stored with whatever
value the datagram carries, regardless of its type — the documented
default applies only when the key is absent (here for `game.score`: the
stored score is the raw `get` result, wrong-typed values included). -/
theorem present_field_stored_verbatim (now : Nat) (data : JVal) (s : Store)
    (hd : data.isDict = true)
    (hneg : (data.getD "robot_id" (.num (-1))).eqNegOne = false)
    (hun : (data.getD "robot_id" (.num (-1))).unhashable = false)
    (hg : (data.getD "game" JVal.objNil).isDict = true) :
    (Store.find (process_robot_data now data s).1
        (data.getD "robot_id" (.num (-1)))).map RobotData.score
      = some ((data.getD "game" JVal.objNil).getD "score" (.num 0)) := by
  rw [process_robot_data_upsert hd hneg hun]
  dsimp only
  rw [Store.find_insert]
  rw [Option.map_some']
  rw [decode_score_of_game_dict _ _ _ _ hg]

/-- Witness for C4's amended theorem: a non-numeric score "lots" is stored
verbatim. -/
theorem present_field_stored_verbatim_witness :
    (Store.find (process_robot_data 0 (JVal.ofFields [("robot_id", .num 1),
        ("game", JVal.ofFields [("score", .str "lots")])]) []).1 (JVal.num 1)).map
        RobotData.score = some (JVal.str "lots") :=
  present_field_stored_verbatim 0 (JVal.ofFields [("robot_id", .num 1),
    ("game", JVal.ofFields [("score", .str "lots")])]) []
    (by decide) (by decide) (by decide) (by decide)

/-- C5 (corrected, counterexample): a datagram carrying a valid id but a
non-object `game` raises partway through decoding (the completion flag is
false and no notification fires), yet the store is NOT left unchanged: the
partially-updated record for id 1 remains upserted. -/
theorem mid_decode_mutation_counterexample :
    (decode 0 (JVal.num 1) (JVal.ofFields [("robot_id", .num 1), ("game", .num 7)])
        { last_update := 0 }).2 = false ∧
    (process_robot_data 0 (JVal.ofFields [("robot_id", .num 1), ("game", .num 7)]) []).1.length
        = 1 ∧
    (process_robot_data 0 (JVal.ofFields [("robot_id", .num 1), ("game", .num 7)]) []).2
        = [] := by decide

/-- C5 (corrected, amended): structural failures — an unparseable payload,
a payload that is not an object, or a missing or -1 identifier — leave the
store unchanged with no notification, and the bad-payload-then-id-5
scenario yields a store containing exactly id 5; but an error raised
partway through the field assignments does not roll back: the partially
updated record remains in the store (see the counterexample). -/
theorem structural_failure_no_mutation (now : Nat) (s : Store) (bad data2 : JVal)
    (hbad : bad.isDict = false)
    (hneg : (data2.getD "robot_id" (.num (-1))).eqNegOne = true) :
    receive now none s = (s, []) ∧
    receive now (some bad) s = (s, []) ∧
    receive now (some data2) s = (s, []) ∧
    (receive 0 (some (JVal.ofFields [("robot_id", .num 5)])) (receive now none []).1).1.map
        Prod.fst = [JVal.num 5] := by
  refine ⟨rfl, ?_, ?_, ?_⟩
  · show process_robot_data now bad s = (s, [])
    exact process_robot_data_not_dict hbad
  · show process_robot_data now data2 s = (s, [])
    exact process_robot_data_neg_id hneg
  · show (process_robot_data 0 (JVal.ofFields [("robot_id", .num 5)]) []).1.map Prod.fst
        = [JVal.num 5]
    decide

/-- Witness for C5's amended theorem: a non-JSON payload, a bare-string
payload and an id-less payload leave the empty store empty, and the
scenario store contains exactly id 5. -/
theorem structural_failure_no_mutation_witness :
    receive 3 none [] = ([], []) ∧
    receive 3 (some (JVal.str "not json")) [] = ([], []) ∧
    receive 3 (some (JVal.ofFields [("team_id", .num 2)])) [] = ([], []) ∧
    (receive 0 (some (JVal.ofFields [("robot_id", .num 5)])) (receive 3 none []).1).1.map
        Prod.fst = [JVal.num 5] :=
  structural_failure_no_mutation 3 [] (JVal.str "not json")
    (JVal.ofFields [("team_id", .num 2)]) (by decide) (by decide)

/-- C6 (confirmed): a record whose last-seen age exceeds the fixed
30-second eviction threshold is removed by the cleanup tick — absent from
the store afterwards — and the deletion phase emits no notification: the
tick's notifications are exactly those of the staleness-marking phase. -/
theorem evicted_record_absent_without_notify (now t : Nat) (s : Store)
    (k : JVal) (r : RobotData)
    (hnodup : (s.map Prod.fst).Nodup)
    (hfind : Store.find s k = some r)
    (hold : veryOld now r = true) :
    Store.find (cleanup_tick now t s).1 k = none ∧
    (cleanup_tick now t s).2 = (cleanup_mark now t s).2 := by
  refine ⟨?_, rfl⟩
  show Store.find (cleanup_evict now (cleanup_mark now t s).1) k = none
  unfold cleanup_evict
  apply Store.find_filter_none
  intro x hx hk
  obtain ⟨r0, hm0, hlu, _⟩ := mem_cleanup_mark_store (k := x.1) (r := x.2) hx
  rw [hk] at hm0
  have hr0 : r0 = r := Store.find_unique hnodup hfind hm0
  have hlu2 : x.2.last_update = r.last_update := by rw [hlu, hr0]
  simp only [veryOld, decide_eq_true_eq] at hold
  simp only [Bool.not_eq_false', veryOld, decide_eq_true_eq, hlu2]
  simpa [veryOld, hlu2] using hold

/-- Witness for C6's theorem: a 40-second-old record is gone after the
tick and the tick's notifications equal the marking phase's. -/
theorem evicted_record_absent_without_notify_witness :
    Store.find (cleanup_tick 40 5 [(JVal.num 2, { last_update := 0 })]).1 (JVal.num 2)
        = none ∧
    (cleanup_tick 40 5 [(JVal.num 2, { last_update := 0 })]).2
        = (cleanup_mark 40 5 [(JVal.num 2, { last_update := 0 })]).2 :=
  evicted_record_absent_without_notify 40 5 [(JVal.num 2, { last_update := 0 })]
    (JVal.num 2) { last_update := 0 } (by decide) (by decide) (by decide)

/-- C7 (corrected, counterexample): with connect-timeout configured to 30
the eviction threshold is NOT strictly larger than the connect-timeout;
and even at the default configuration the eviction check does not match a
superset of the staleness check: a 10-second-old record is matched by the
staleness check but not by the eviction check. -/
theorem evict_threshold_counterexample :
    ¬ (({ port := 8080, timeout_seconds := 30 } : Config).timeout_seconds < evictTimeout) ∧
    connectStale 10 ({ port := 8080, timeout_seconds := 5 } : Config).timeout_seconds
        { last_update := 0 } = true ∧
    veryOld 10 ({ last_update := 0 } : RobotData) = false := by decide

/-- C7 (corrected, amended): the eviction threshold is the fixed constant
30 seconds regardless of configuration; for configurations whose
connect-timeout is below 30 (such as the default 5) it is strictly larger
than the connect-timeout, and then every record the eviction check matches
is also matched by the staleness check (a subset, not a superset). -/
theorem evict_threshold_fixed_constant (cfg : Config) (now : Nat) (r : RobotData)
    (ht : cfg.timeout_seconds < 30) :
    evictTimeout = 30 ∧ cfg.timeout_seconds < evictTimeout ∧
      (veryOld now r = true → connectStale now cfg.timeout_seconds r = true) := by
  refine ⟨rfl, ht, fun h => ?_⟩
  simp only [veryOld, evictTimeout, decide_eq_true_eq] at h
  simp only [connectStale, decide_eq_true_eq]
  omega

/-- Witness for C7's amended theorem at the default configuration and a
40-second-old record. -/
theorem evict_threshold_fixed_constant_witness :
    evictTimeout = 30 ∧
    ({ port := 8080, timeout_seconds := 5 } : Config).timeout_seconds < evictTimeout ∧
      (veryOld 40 ({ last_update := 0 } : RobotData) = true →
        connectStale 40 ({ port := 8080, timeout_seconds := 5 } : Config).timeout_seconds
          { last_update := 0 } = true) :=
  evict_threshold_fixed_constant { port := 8080, timeout_seconds := 5 } 40
    { last_update := 0 } (by decide)

/-- C8 (confirmed): the connected-records accessor returns exactly the
restriction of the full snapshot to records whose connected flag is true,
with identical contents. -/
theorem connected_snapshot_is_filtered_snapshot (s : Store) (k : JVal) (r : RobotData) :
    (k, r) ∈ get_connected_robots s ↔ (k, r) ∈ get_robots s ∧ r.is_connected = true := by
  simp [get_connected_robots, get_robots, List.mem_filter]

/-- C9 (confirmed): in every store state reachable by any interleaving of
received datagrams and cleanup ticks, every key of the record map maps to
a record whose stored `robot_id` equals that key: processing writes the
keying id into the record, and the cleanup never alters it. -/
theorem store_key_matches_record_id (s : Store) (hs : Reachable s)
    (k : JVal) (r : RobotData) (hmem : (k, r) ∈ s) : r.robot_id = k := by
  induction hs generalizing k r with
  | init => simp at hmem
  | step_receive now p s0 hs0 ih =>
    cases p with
    | none => exact ih k r hmem
    | some data =>
      simp only [receive] at hmem
      cases hd : data.isDict
      · rw [process_robot_data_not_dict hd] at hmem
        exact ih k r hmem
      · cases hneg : (data.getD "robot_id" (.num (-1))).eqNegOne
        · cases hun : (data.getD "robot_id" (.num (-1))).unhashable
          · rw [process_robot_data_upsert hd hneg hun] at hmem
            rcases Store.mem_insert hmem with hold2 | ⟨hk, hr⟩
            · exact ih k r hold2
            · rw [hr, hk]
              exact decode_robot_id now _ data _
          · rw [process_robot_data_unhashable_id hd hun] at hmem
            exact ih k r hmem
        · rw [process_robot_data_neg_id hneg] at hmem
          exact ih k r hmem
  | step_cleanup now t s0 hs0 ih =>
    obtain ⟨r0, hm0, _, hrid⟩ := mem_cleanup_tick_store hmem
    rw [hrid]
    exact ih k r0 hm0

/-- Witness for C9's theorem: the store reached by one received datagram
for id 3 stores a record whose `robot_id` is 3. -/
theorem store_key_matches_record_id_witness :
    (decode 0 (JVal.num 3) (JVal.ofFields [("robot_id", JVal.num 3)])
        { last_update := 0 }).1.robot_id = JVal.num 3 :=
  store_key_matches_record_id
    ((receive 0 (some (JVal.ofFields [("robot_id", JVal.num 3)])) []).1)
    (Reachable.step_receive 0 (some (JVal.ofFields [("robot_id", JVal.num 3)])) []
      Reachable.init)
    (JVal.num 3)
    ((decode 0 (JVal.num 3) (JVal.ofFields [("robot_id", JVal.num 3)])
      { last_update := 0 }).1)
    (by decide)

/-- C10 (confirmed): a datagram with a valid integer identifier and no
`robot_name` field stores the display name "robot" followed by the id —
an id-dependent default different from the record type's own default, the
empty string. -/
theorem default_display_name_from_id (now : Nat) (data : JVal) (s : Store) (n : Int)
    (hd : data.isDict = true)
    (hid : data.getD "robot_id" (.num (-1)) = .num (n : Rat))
    (hn : n ≠ -1)
    (hname : data.hasKey "robot_name" = false) :
    (Store.find (process_robot_data now data s).1 (.num (n : Rat))).map
        RobotData.robot_name = some (.str ("robot" ++ toString n)) ∧
    ({} : RobotData).robot_name = .str "" ∧
    JVal.str ("robot" ++ toString n) ≠ JVal.str "" := by
  have hneg : (data.getD "robot_id" (.num (-1))).eqNegOne = false := by
    rw [hid]
    simp only [JVal.eqNegOne, decide_eq_false_iff_not]
    intro hq
    exact hn (by exact_mod_cast hq)
  have hun : (data.getD "robot_id" (.num (-1))).unhashable = false := by
    rw [hid]; rfl
  refine ⟨?_, rfl, ?_⟩
  · rw [process_robot_data_upsert hd hneg hun]
    dsimp only
    rw [hid, Store.find_insert, Option.map_some', decode_robot_name,
      JVal.getD_of_not_hasKey _ hname]
    simp [JVal.pyStr, Rat.den_intCast, Rat.num_intCast]
  · intro hcon
    have h1 : ("robot" ++ toString n) = "" := by injection hcon
    have h2 := congrArg String.length h1
    rw [String.length_append] at h2
    simp at h2
    exact absurd h2.1 (by decide)

/-- Witness for C10's theorem: id 3 with no name yields "robot3". -/
theorem default_display_name_from_id_witness :
    (Store.find (process_robot_data 0 (JVal.ofFields [("robot_id", .num 3)]) []).1
        (.num ((3 : Int) : Rat))).map RobotData.robot_name
      = some (.str ("robot" ++ toString (3 : Int))) ∧
    ({} : RobotData).robot_name = .str "" ∧
    JVal.str ("robot" ++ toString (3 : Int)) ≠ JVal.str "" :=
  default_display_name_from_id 0 (JVal.ofFields [("robot_id", .num 3)]) [] 3
    (by decide) (by decide) (by decide) (by decide)

end DashboardCore
